import Mathlib

/- Shallow embedding of pyLSV2's low-level LSV2 transport
(`pyLSV2/low_level_com.py`, class `LLLSV2Com`): telegram framing, the
buffer-size policy, connection state and the send/receive exchange with
its reassembly loop.  Byte strings are modelled as `List Nat` (each
element a byte value), machine integers as `Nat`/`Int` with explicit
bounds, and the TCP receive side as a queue of chunks, one chunk per
`recv` call. -/

/-- Modelled from the spec: the response-code catalog (`pyLSV2.const.RSP`)
is outside the visible source; per the spec it is a set of 4-character
codes with a sentinel meaning "none" and a dedicated error code.  A code
value wraps the characters produced by the permissive header decode. -/
structure RSP where
  val : List Nat
deriving DecidableEq

/-- Modelled from the spec: the sentinel response code "none". -/
def RSP.NONE : RSP := ⟨[110, 111, 110, 101]⟩

/-- Modelled from the spec: the dedicated error-response code, named
`T_ER` in the source. -/
def RSP.T_ER : RSP := ⟨[84, 95, 69, 82]⟩

/-- Modelled from the spec: the external error-record decoder
(`pyLSV2.dat_cls.TransmissionError`) is outside the visible source; the
spec treats it as an opaque structured value with an is-empty notion.
The empty record holds no bytes; a decoded record holds the bytes it was
decoded from. -/
structure TransmissionError where
  raw : Option (List Nat) := none
deriving DecidableEq

/-- Modelled from the spec: the empty error record, `TransmissionError()`
in the source. -/
def TransmissionError.empty : TransmissionError := {}

/-- Modelled from the spec: decode raw bytes of an error-type response
into an error record, `TransmissionError.from_ba` in the source. -/
def TransmissionError.from_ba (ba : List Nat) : TransmissionError := ⟨some ba⟩

/-- UTF-8 decoding with Python's "ignore" error handler, core of the
decode used on the 4 code bytes at line 204 of the source
(`.decode("utf-8", "ignore")`): a valid sequence yields its code point,
invalid bytes (bad start bytes, bad continuations, overlong forms,
surrogates, out-of-range) are skipped.  The first argument is structural
fuel; each step consumes one unit of fuel and at least one list element,
so any fuel at or above the list length gives the decode of the whole
list (`utf8DecodeIgnore` passes the length).  Always total, never
failing. -/
def utf8DecodeAux : Nat → List Nat → List Nat
  | 0, _ => []
  | _ + 1, [] => []
  | fuel + 1, b :: rest =>
    if b < 128 then
      b :: utf8DecodeAux fuel rest
    else if b < 194 then
      utf8DecodeAux fuel rest
    else if b < 224 then
      match rest with
      | [] => []
      | b1 :: r1 =>
        if 128 ≤ b1 ∧ b1 < 192 then
          ((b - 192) * 64 + (b1 - 128)) :: utf8DecodeAux fuel r1
        else
          utf8DecodeAux fuel rest
    else if b < 240 then
      match rest with
      | [] => []
      | b1 :: r1 =>
        if (if b = 224 then 160 ≤ b1 ∧ b1 < 192
            else if b = 237 then 128 ≤ b1 ∧ b1 < 160
            else 128 ≤ b1 ∧ b1 < 192) then
          match r1 with
          | [] => []
          | b2 :: r2 =>
            if 128 ≤ b2 ∧ b2 < 192 then
              ((b - 224) * 4096 + (b1 - 128) * 64 + (b2 - 128)) :: utf8DecodeAux fuel r2
            else
              utf8DecodeAux fuel r1
        else
          utf8DecodeAux fuel rest
    else if b < 245 then
      match rest with
      | [] => []
      | b1 :: r1 =>
        if (if b = 240 then 144 ≤ b1 ∧ b1 < 192
            else if b = 244 then 128 ≤ b1 ∧ b1 < 144
            else 128 ≤ b1 ∧ b1 < 192) then
          match r1 with
          | [] => []
          | b2 :: r2 =>
            if 128 ≤ b2 ∧ b2 < 192 then
              match r2 with
              | [] => []
              | b3 :: r3 =>
                if 128 ≤ b3 ∧ b3 < 192 then
                  ((b - 240) * 262144 + (b1 - 128) * 4096 + (b2 - 128) * 64 + (b3 - 128))
                    :: utf8DecodeAux fuel r3
                else
                  utf8DecodeAux fuel r2
            else
              utf8DecodeAux fuel r1
        else
          utf8DecodeAux fuel rest
    else
      utf8DecodeAux fuel rest

/-- UTF-8 decoding of a whole byte list with the "ignore" handler. -/
def utf8DecodeIgnore (l : List Nat) : List Nat := utf8DecodeAux l.length l

/-- Big-endian packing of an unsigned 32-bit value, `struct.pack("!L", n)`
(line 165 of the source); Python raises `struct.error` for values outside
the 32-bit range, modelled as `none`. -/
def packU32 (n : Nat) : Option (List Nat) :=
  if n < 2 ^ 32 then
    some [n / 2 ^ 24 % 256, n / 2 ^ 16 % 256, n / 2 ^ 8 % 256, n % 256]
  else
    none

/-- Big-endian unpacking of an unsigned 32-bit value from 4 bytes,
`struct.unpack("!L", data[0:4])[0]` (line 200 of the source).  Only ever
applied to 4-byte slices. -/
def unpackU32 (bs : List Nat) : Nat :=
  match bs with
  | b0 :: b1 :: b2 :: b3 :: _ => ((b0 * 256 + b1) * 256 + b2) * 256 + b3
  | _ => 0

namespace LLLSV2Com

/-- Mutable fields of class `LLLSV2Com` that the protocol logic reads or
writes (lines 45-58 of the source): `_buffer_size`, `_is_connected`,
`_last_lsv2_response`, `_last_error`.  Host, port, timeout, logger and
the socket handle are externalized (the socket is passed to `telegram`
as a `Sock`). -/
structure State where
  buffer_size : Int
  is_connected : Bool
  last_lsv2_response : RSP
  last_error : TransmissionError
deriving DecidableEq

/-- `DEFAULT_BUFFER_SIZE` (line 20 of the source). -/
def DEFAULT_BUFFER_SIZE : Int := 256

/-- `set_buffer_size` (lines 112-128): a size below 8 reverts the buffer
to the default and reports `false`; otherwise the size is adopted and
`true` reported. -/
def set_buffer_size (st : State) (buffer_size : Int) : State × Bool :=
  if buffer_size < 8 then
    ({ st with buffer_size := DEFAULT_BUFFER_SIZE }, false)
  else
    ({ st with buffer_size := buffer_size }, true)

/-- `get_buffer_size` (lines 130-132). -/
def get_buffer_size (st : State) : Int := st.buffer_size

/-- State after `__init__` (lines 45-58): `_buffer_size` starts at -1 and
is immediately set via `set_buffer_size(DEFAULT_BUFFER_SIZE)`; the
connection starts disconnected with the "none" response and an empty
error record. -/
def initState : State :=
  let st0 : State :=
    { buffer_size := -1
      is_connected := false
      last_lsv2_response := RSP.NONE
      last_error := TransmissionError.empty }
  (set_buffer_size st0 DEFAULT_BUFFER_SIZE).1

/-- Successful `connect` (lines 86-88): marks connected and resets the
last response and error. -/
def connect (st : State) : State :=
  { st with
    is_connected := true
    last_lsv2_response := RSP.NONE
    last_error := TransmissionError.empty }

/-- `disconnect` (lines 106-108): marks disconnected and resets the last
response and error. -/
def disconnect (st : State) : State :=
  { st with
    is_connected := false
    last_lsv2_response := RSP.NONE
    last_error := TransmissionError.empty }

/-- Receive side of the TCP socket: a queue of chunks, one chunk per
arriving segment, plus a flag telling whether `send` succeeds.  A `recv`
sees the head chunk, truncated to the requested size (the remainder
stays buffered); an empty queue models a blocking `recv` that ends in
`socket.timeout`. -/
structure Sock where
  sendOk : Bool
  recvQueue : List (List Nat)
deriving DecidableEq

/-- One `self._tcpsock.recv(n)` call against the chunk queue: `none`
models the timeout exception of a read that never completes. -/
def sockRecv (n : Nat) (q : List (List Nat)) : Option (List Nat × List (List Nat)) :=
  match q with
  | [] => none
  | c :: rest =>
    if c.length ≤ n then some (c, rest)
    else some (c.take n, c.drop n :: rest)

/-- Failure conditions surfaced by `telegram`, named per the spec's
taxonomy: `notConnected` is the line-153 exception, `structError` the
`struct.error` of packing an out-of-range length, `telegramTooLarge` the
line-177 `OverflowError`, `transmissionFailure` any socket exception
during send or receive, `malformedResponse` the line-207 exception for a
response shorter than 8 bytes. -/
inductive TgErr where
  | notConnected
  | structError
  | telegramTooLarge
  | transmissionFailure
  | malformedResponse
deriving DecidableEq

/-- Result of an exchange: returned payload or failure. -/
inductive TgOutcome where
  | ok (payload : List Nat)
  | err (e : TgErr)
deriving DecidableEq

/-- Frame encoding, lines 163-169 of the source: 4 length bytes
(big-endian, counting only the payload), then the 4 command characters,
then the payload.  `none` when `struct.pack` raises. -/
def encode (command : List Nat) (payload : List Nat) : Option (List Nat) :=
  match packU32 payload.length with
  | none => none
  | some len4 => some (len4 ++ command ++ payload)

/-- Header decoding, lines 198-204 of the source: requires at least 8
bytes; yields the declared length from bytes 0-3 and the permissively
decoded code from bytes 4-7. -/
def decode_header (bs : List Nat) : Option (Nat × List Nat) :=
  if 8 ≤ bs.length then
    some (unpackU32 (bs.take 4), utf8DecodeIgnore ((bs.drop 4).take 4))
  else
    none

/-- Total number of buffered bytes in a chunk queue. -/
def totalBytes (q : List (List Nat)) : Nat := (q.map List.length).sum

/-- Fuel bound for the reassembly loop over queue `q`: every `recv`
against `q` either consumes a whole chunk or at least one byte when the
request is positive, so `totalBytes q + q.length + 1` iterations always
suffice for the calls `telegram` makes (where the request size is
positive whenever the loop is entered). -/
def fuelFor (q : List (List Nat)) : Nat := totalBytes q + q.length + 1

/-- Reassembly loop, lines 215-232 of the source: while the accumulated
content is shorter than the declared length, `recv` more bytes and
append them.  The request size is `response_length - len(data_recived[8:])`
(line 223), re-computed each iteration from the unchanged initial read,
so it stays at the initial deficit rather than shrinking to the
remaining one.  `initLen` is the length of `data_recived[8:]`.  A `recv`
timeout yields `none` (the socket exception re-raised at line 232); the
accumulated list of request sizes is returned alongside.  `fuel` bounds
the iteration count; exhaustion (also `none`) only models the
non-terminating repetition of a zero-sized request, which `telegram`
never reaches. -/
def recvLoop (fuel respLen initLen : Nat) (content : List Nat)
    (q : List (List Nat)) (reqs : List Nat) :
    Option (List Nat × List (List Nat)) × List Nat :=
  if content.length < respLen then
    match fuel with
    | 0 => (none, reqs)
    | fuel + 1 =>
      match sockRecv (respLen - initLen) q with
      | none => (none, reqs ++ [respLen - initLen])
      | some (chunk, q2) =>
        recvLoop fuel respLen initLen (content ++ chunk) q2 (reqs ++ [respLen - initLen])
  else
    (some (content, q), reqs)

/-- Response handling, lines 195-234 of the source: an empty read means
"no response" (length 0, code "none"); 1-7 bytes raise the
too-short exception; 8 or more bytes yield the declared length and the
response code, then the reassembly loop runs if the declared length is
positive.  Returns the state (with `_last_lsv2_response` updated as the
code does), the outcome, and the sizes of the loop's `recv` requests. -/
def handleResponse (st : State) (data_recived : List Nat) (q : List (List Nat)) :
    State × TgOutcome × List Nat :=
  if 0 < data_recived.length then
    if 8 ≤ data_recived.length then
      let response_length := unpackU32 (data_recived.take 4)
      let st2 := { st with
        last_lsv2_response := RSP.mk (utf8DecodeIgnore ((data_recived.drop 4).take 4)) }
      if 0 < response_length then
        let initContent := data_recived.drop 8
        match recvLoop (fuelFor q) response_length initContent.length initContent q [] with
        | (none, reqs) => (st2, .err .transmissionFailure, reqs)
        | (some (content, _), reqs) => (st2, .ok content, reqs)
      else
        (st2, .ok [], [])
    else
      (st, .err .malformedResponse, [])
  else
    ({ st with last_lsv2_response := RSP.NONE }, .ok [], [])

/-- Classification, lines 236-239 of the source: an error-code response
stores the decoded error record, anything else stores the empty one. -/
def classify (st : State) (response_content : List Nat) : State :=
  if st.last_lsv2_response = RSP.T_ER then
    { st with last_error := TransmissionError.from_ba response_content }
  else
    { st with last_error := TransmissionError.empty }

/-- Observable effect of one `telegram` call: the state afterwards (also
after a raised exception, since the object keeps its mutations), the
frames passed to `send`, the sizes requested from `recv` in call order,
and the returned payload or failure. -/
structure TgResult where
  state : State
  sends : List (List Nat)
  recvs : List Nat
  result : TgOutcome
deriving DecidableEq

/-- `telegram` (lines 134-241 of the source): precondition check, reset
of the last response, frame encoding, the size check against the buffer,
the send, the optional initial receive of up to `buffer_size` bytes,
response handling with reassembly, and classification.  An absent
payload is passed as `[]` (Python's `None`/empty cases coincide). -/
def telegram (st : State) (command : List Nat) (payload : List Nat)
    (wait_for_response : Bool) (sock : Sock) : TgResult :=
  if st.is_connected = false then
    { state := st, sends := [], recvs := [], result := .err .notConnected }
  else
    let st1 := { st with last_lsv2_response := RSP.NONE }
    match encode command payload with
    | none => { state := st1, sends := [], recvs := [], result := .err .structError }
    | some tg =>
      if st1.buffer_size ≤ (tg.length : Int) then
        { state := st1, sends := [], recvs := [], result := .err .telegramTooLarge }
      else if sock.sendOk = false then
        { state := st1, sends := [tg], recvs := [], result := .err .transmissionFailure }
      else if wait_for_response then
        match sockRecv st1.buffer_size.toNat sock.recvQueue with
        | none =>
          { state := st1, sends := [tg], recvs := [st1.buffer_size.toNat],
            result := .err .transmissionFailure }
        | some (data_recived, q) =>
          match handleResponse st1 data_recived q with
          | (st2, .err e, reqs) =>
            { state := st2, sends := [tg], recvs := st1.buffer_size.toNat :: reqs,
              result := .err e }
          | (st2, .ok content, reqs) =>
            { state := classify st2 content, sends := [tg],
              recvs := st1.buffer_size.toNat :: reqs, result := .ok content }
      else
        match handleResponse st1 [] sock.recvQueue with
        | (st2, .err e, reqs) =>
          { state := st2, sends := [tg], recvs := reqs, result := .err e }
        | (st2, .ok content, reqs) =>
          { state := classify st2 content, sends := [tg], recvs := reqs,
            result := .ok content }

/-- Public operations on one `LLLSV2Com` object, for stating invariants
over arbitrary call sequences. -/
inductive Op where
  | setBuf (x : Int)
  | doConnect
  | doDisconnect
  | doTelegram (command : List Nat) (payload : List Nat) (wait : Bool) (sock : Sock)

/-- Effect of one public operation on the object state. -/
def applyOp (st : State) : Op → State
  | .setBuf x => (set_buffer_size st x).1
  | .doConnect => connect st
  | .doDisconnect => disconnect st
  | .doTelegram c p w s => (telegram st c p w s).state


theorem utf8DecodeAux_ascii (fuel : Nat) : ∀ (l : List Nat), l.length ≤ fuel →
    (∀ b ∈ l, b < 128) → utf8DecodeAux fuel l = l := by
  induction fuel with
  | zero =>
    intro l hl h
    cases l with
    | nil => rfl
    | cons b rest => simp at hl
  | succ fuel ih =>
    intro l hl h
    cases l with
    | nil => rfl
    | cons b rest =>
      have hb : b < 128 := h b (by simp)
      have hrest : rest.length ≤ fuel := by
        simp only [List.length_cons] at hl
        omega
      simp only [utf8DecodeAux, if_pos hb]
      rw [ih rest hrest (fun x hx => h x (by simp [hx]))]

theorem utf8DecodeIgnore_ascii (l : List Nat) (h : ∀ b ∈ l, b < 128) :
    utf8DecodeIgnore l = l :=
  utf8DecodeAux_ascii l.length l le_rfl h

theorem unpackU32_pack_bytes (n : Nat) (h : n < 2 ^ 32) :
    unpackU32 [n / 2 ^ 24 % 256, n / 2 ^ 16 % 256, n / 2 ^ 8 % 256, n % 256] = n := by
  simp only [unpackU32]
  omega

theorem handleResponse_buffer_size (st : State) (d : List Nat) (q : List (List Nat)) :
    (handleResponse st d q).1.buffer_size = st.buffer_size := by
  simp only [handleResponse]
  repeat' split
  all_goals rfl


theorem classify_buffer_size (st : State) (c : List Nat) :
    (classify st c).buffer_size = st.buffer_size := by
  unfold classify
  split <;> rfl

theorem classify_is_connected (st : State) (c : List Nat) :
    (classify st c).is_connected = st.is_connected := by
  unfold classify
  split <;> rfl

theorem classify_last_response (st : State) (c : List Nat) :
    (classify st c).last_lsv2_response = st.last_lsv2_response := by
  unfold classify
  split <;> rfl

theorem handleResponse_is_connected (st : State) (d : List Nat) (q : List (List Nat)) :
    (handleResponse st d q).1.is_connected = st.is_connected := by
  simp only [handleResponse]
  repeat' split
  all_goals rfl

theorem telegram_buffer_size (st : State) (c p : List Nat) (w : Bool) (s : Sock) :
    (telegram st c p w s).state.buffer_size = st.buffer_size := by
  simp only [telegram]
  repeat' split
  all_goals first
    | rfl
    | (rename_i heq
       have hb := congrArg (fun t => t.1.buffer_size) heq
       try simp only [classify_buffer_size]
       exact hb.symm.trans (handleResponse_buffer_size _ _ _))

theorem telegram_is_connected (st : State) (c p : List Nat) (w : Bool) (s : Sock) :
    (telegram st c p w s).state.is_connected = st.is_connected := by
  simp only [telegram]
  repeat' split
  all_goals first
    | rfl
    | (rename_i heq
       have hb := congrArg (fun t => t.1.is_connected) heq
       try simp only [classify_is_connected]
       exact hb.symm.trans (handleResponse_is_connected _ _ _))


theorem set_buffer_size_ge (st : State) (x : Int) :
    8 ≤ (set_buffer_size st x).1.buffer_size := by
  unfold set_buffer_size DEFAULT_BUFFER_SIZE
  split
  · exact (by decide : (8 : Int) ≤ 256)
  · rename_i h
    show 8 ≤ x
    omega

theorem applyOp_buffer_ge (st : State) (op : Op) (h : 8 ≤ st.buffer_size) :
    8 ≤ (applyOp st op).buffer_size := by
  cases op with
  | setBuf x => exact set_buffer_size_ge st x
  | doConnect => exact h
  | doDisconnect => exact h
  | doTelegram c p w s =>
    show 8 ≤ (telegram st c p w s).state.buffer_size
    rw [telegram_buffer_size]
    exact h

/-- Claim C6: the buffer size is at least 8 at all times: after
construction and after every sequence of set_buffer_size, connect,
disconnect and telegram calls, get_buffer_size returns a value of at
least 8. -/
theorem buffer_size_always_ge_8 (ops : List Op) :
    8 ≤ get_buffer_size (ops.foldl applyOp initState) := by
  have main : ∀ (l : List Op) (st : State), 8 ≤ st.buffer_size →
      8 ≤ (l.foldl applyOp st).buffer_size := by
    intro l
    induction l with
    | nil => intro st h; exact h
    | cons op rest ih =>
      intro st h
      exact ih _ (applyOp_buffer_ge st op h)
  exact main ops initState (by decide)

/-- Claim C5: for every integer x, set_buffer_size(x) with x < 8 leaves
get_buffer_size() equal to the default 256 and returns false, and with
x at least 8 leaves get_buffer_size() equal to x and returns true. -/
theorem set_buffer_size_floor (st : State) (x : Int) :
    (x < 8 → get_buffer_size (set_buffer_size st x).1 = 256 ∧ (set_buffer_size st x).2 = false)
    ∧ (8 ≤ x → get_buffer_size (set_buffer_size st x).1 = x ∧ (set_buffer_size st x).2 = true) := by
  unfold set_buffer_size get_buffer_size DEFAULT_BUFFER_SIZE
  constructor
  · intro h
    rw [if_pos h]
    exact ⟨rfl, rfl⟩
  · intro h
    rw [if_neg (by omega)]
    exact ⟨rfl, rfl⟩

/-- Witness for claim C5 at x = 5 and x = 100. -/
theorem set_buffer_size_floor_witness :
    ((5 : Int) < 8 ∧ get_buffer_size (set_buffer_size initState 5).1 = 256
      ∧ (set_buffer_size initState 5).2 = false)
    ∧ ((8 : Int) ≤ 100 ∧ get_buffer_size (set_buffer_size initState 100).1 = 100
      ∧ (set_buffer_size initState 100).2 = true) := by
  constructor
  · exact ⟨by decide, (set_buffer_size_floor initState 5).1 (by decide)⟩
  · exact ⟨by decide, (set_buffer_size_floor initState 100).2 (by decide)⟩

/-- An encoding whose length cannot be packed fails as a whole. -/
theorem encode_none_of_pack_none (c p : List Nat) (h : packU32 p.length = none) :
    encode c p = none := by
  unfold encode
  rw [h]

/-- Claim C3, counterexample: with buffer size 2^32 + 9 (any size of at
least 8 is accepted by set_buffer_size) the payload of 2^32 zero bytes
satisfies len(p) < buffer_size - 8 for a 4-character ASCII code, yet
encoding fails, because struct.pack("!L", n) raises for n at or above
2^32 -- so decode_header of encode(c, p) cannot yield (len(p), c),
refuting the claim as stated. -/
theorem encode_u32_overflow :
    (∀ b ∈ [84, 69, 83, 84], b < 128) ∧ List.length [84, 69, 83, 84] = 4
    ∧ (((List.replicate (2 ^ 32) (0 : Nat)).length : Int) < (2 ^ 32 + 9 : Int) - 8)
    ∧ encode [84, 69, 83, 84] (List.replicate (2 ^ 32) (0 : Nat)) = none := by
  refine ⟨by decide, rfl, ?_, ?_⟩
  · rw [List.length_replicate]
    norm_num
  · apply encode_none_of_pack_none
    rw [List.length_replicate]
    unfold packU32
    rw [if_neg (lt_irrefl _)]

/-- Claim C3, amended: for every 4-character ASCII code and every
payload with len(p) < buffer_size - 8 and len(p) < 2^32, decoding the
header of encode(c, p) yields declared length len(p) and code c, and
the bytes following the 8-byte header equal p. -/
theorem encode_decode_roundtrip (buffer_size : Int) (c p : List Nat)
    (hc4 : c.length = 4) (hascii : ∀ b ∈ c, b < 128)
    (hfit : (p.length : Int) < buffer_size - 8) (h32 : p.length < 2 ^ 32) :
    ∃ t, encode c p = some t ∧ decode_header t = some (p.length, c) ∧ t.drop 8 = p := by
  have hpack : packU32 p.length =
      some [p.length / 2 ^ 24 % 256, p.length / 2 ^ 16 % 256,
        p.length / 2 ^ 8 % 256, p.length % 256] := by
    unfold packU32
    rw [if_pos h32]
  refine ⟨[p.length / 2 ^ 24 % 256, p.length / 2 ^ 16 % 256,
    p.length / 2 ^ 8 % 256, p.length % 256] ++ c ++ p, ?_, ?_, ?_⟩
  · unfold encode
    rw [hpack]
  · have hlen : ([p.length / 2 ^ 24 % 256, p.length / 2 ^ 16 % 256,
        p.length / 2 ^ 8 % 256, p.length % 256] ++ c ++ p).length = 8 + p.length := by
      simp [hc4]
      omega
    unfold decode_header
    rw [if_pos (by omega : 8 ≤ ([p.length / 2 ^ 24 % 256, p.length / 2 ^ 16 % 256,
      p.length / 2 ^ 8 % 256, p.length % 256] ++ c ++ p).length)]
    rw [List.append_assoc]
    rw [List.take_left' (by rfl : [p.length / 2 ^ 24 % 256, p.length / 2 ^ 16 % 256,
      p.length / 2 ^ 8 % 256, p.length % 256].length = 4)]
    rw [List.drop_left' (by rfl : [p.length / 2 ^ 24 % 256, p.length / 2 ^ 16 % 256,
      p.length / 2 ^ 8 % 256, p.length % 256].length = 4)]
    rw [List.take_left' hc4]
    rw [unpackU32_pack_bytes p.length h32, utf8DecodeIgnore_ascii c hascii]
  · rw [List.append_assoc, ← List.append_assoc]
    exact List.drop_left' (by simp [hc4])

/-- Witness for the amended claim C3 at a concrete code and payload. -/
theorem encode_decode_roundtrip_witness :
    ((3 : Int) < 256 - 8 ∧ (3 : Nat) < 2 ^ 32)
    ∧ (∃ t, encode [84, 69, 83, 84] [1, 2, 3] = some t
        ∧ decode_header t = some ((3 : Nat), [84, 69, 83, 84]) ∧ t.drop 8 = [1, 2, 3]) := by
  constructor
  · constructor
    · decide
    · decide
  · exact encode_decode_roundtrip 256 [84, 69, 83, 84] [1, 2, 3] rfl (by decide)
      (by decide) (by decide)


/-- The "none" sentinel and the error code are distinct codes. -/
theorem RSP_NONE_ne_T_ER : RSP.NONE ≠ RSP.T_ER := by decide

/-- Claim C4: for every connected exchange whose encoded frame has
length at least the current buffer size, the exchange fails with
TelegramTooLarge and no bytes are written to the socket (zero send
calls). -/
theorem telegram_oversize_rejected (st : State) (command payload tg : List Nat)
    (wait : Bool) (sock : Sock)
    (hconn : st.is_connected = true)
    (henc : encode command payload = some tg)
    (hbig : st.buffer_size ≤ (tg.length : Int)) :
    (telegram st command payload wait sock).result = .err .telegramTooLarge
    ∧ (telegram st command payload wait sock).sends = [] := by
  simp [telegram, hconn, henc, hbig]

/-- Claim C7: for every connected exchange called with wait_for_response
false whose send succeeds, the call returns an empty payload, issues no
receive call on the socket, and leaves last_response equal to the
"none" sentinel. -/
theorem telegram_no_wait (st : State) (command payload tg : List Nat) (sock : Sock)
    (hconn : st.is_connected = true)
    (henc : encode command payload = some tg)
    (hfit : (tg.length : Int) < st.buffer_size)
    (hsend : sock.sendOk = true) :
    (telegram st command payload false sock).result = .ok []
    ∧ (telegram st command payload false sock).recvs = []
    ∧ (telegram st command payload false sock).state.last_lsv2_response = RSP.NONE := by
  simp [telegram, hconn, henc, not_le.mpr hfit, hsend, handleResponse, classify,
    RSP_NONE_ne_T_ER]


/-- Inversion: a telegram call can only return a payload when the state
was connected, the frame encoded, the frame fit the buffer, and the
send succeeded. -/
theorem telegram_ok_inv (st : State) (c p : List Nat) (w : Bool) (s : Sock)
    (content : List Nat) (hok : (telegram st c p w s).result = .ok content) :
    st.is_connected = true ∧ s.sendOk = true
    ∧ ∃ tg, encode c p = some tg ∧ (tg.length : Int) < st.buffer_size := by
  by_cases hc : st.is_connected = false
  · unfold telegram at hok
    simp [hc] at hok
  · have hconn : st.is_connected = true := by simpa using hc
    rcases hE : encode c p with _ | tg
    · unfold telegram at hok
      simp [hc, hE] at hok
    · by_cases hbig : st.buffer_size ≤ (tg.length : Int)
      · unfold telegram at hok
        simp [hc, hE, hbig] at hok
      · by_cases hsend : s.sendOk = false
        · unfold telegram at hok
          simp [hc, hE, hbig, hsend] at hok
        · exact ⟨hconn, by simpa using hsend, tg, rfl, not_le.mp hbig⟩

/-- The classification step stores the decoded error record exactly when
the last response is the error code, and the empty record otherwise. -/
theorem classify_spec (st : State) (c : List Nat) :
    ((classify st c).last_lsv2_response = RSP.T_ER →
      (classify st c).last_error = TransmissionError.from_ba c)
    ∧ ((classify st c).last_lsv2_response ≠ RSP.T_ER →
      (classify st c).last_error = TransmissionError.empty) := by
  unfold classify
  split
  · rename_i h
    exact ⟨fun _ => rfl, fun hne => absurd h hne⟩
  · rename_i h
    exact ⟨fun heq => absurd heq h, fun _ => rfl⟩

/-- Claim C10: every wait_for_response = false telegram call that
completes successfully overwrites last_error with the empty error
record (a prior non-empty record does not survive), while the buffer
size and the connected flag are unchanged. -/
theorem telegram_no_wait_frame (st : State) (command payload p : List Nat) (sock : Sock)
    (hok : (telegram st command payload false sock).result = .ok p) :
    (telegram st command payload false sock).state.last_error = TransmissionError.empty
    ∧ (telegram st command payload false sock).state.buffer_size = st.buffer_size
    ∧ (telegram st command payload false sock).state.is_connected = st.is_connected := by
  obtain ⟨hconn, hsend, tg, hE, hfit⟩ := telegram_ok_inv st command payload false sock p hok
  refine ⟨?_, telegram_buffer_size .., telegram_is_connected ..⟩
  simp [telegram, hconn, hE, not_le.mpr hfit, hsend, handleResponse, classify,
    RSP_NONE_ne_T_ER]


/-- Claim C8: for every exchange that completes its receive and
reassembly (returns a payload), if the decoded response code equals the
error code then last_error holds the record decoded from the
accumulated content while that content is still returned as the
payload; otherwise last_error is the empty record. -/
theorem telegram_classification (st : State) (c p : List Nat) (w : Bool) (s : Sock)
    (content : List Nat) (hok : (telegram st c p w s).result = .ok content) :
    ((telegram st c p w s).state.last_lsv2_response = RSP.T_ER →
      (telegram st c p w s).state.last_error = TransmissionError.from_ba content)
    ∧ ((telegram st c p w s).state.last_lsv2_response ≠ RSP.T_ER →
      (telegram st c p w s).state.last_error = TransmissionError.empty) := by
  obtain ⟨hconn, hsend, tg, hE, hfit⟩ := telegram_ok_inv st c p w s content hok
  cases w with
  | false =>
    simp [telegram, hconn, hE, not_le.mpr hfit, hsend, handleResponse] at hok ⊢
    subst hok
    exact classify_spec { st with last_lsv2_response := RSP.NONE } []
  | true =>
    rcases hR : sockRecv st.buffer_size.toNat s.recvQueue with _ | ⟨d, q⟩
    · simp [telegram, hconn, hE, not_le.mpr hfit, hsend, hR] at hok
    · rcases hH : handleResponse { st with last_lsv2_response := RSP.NONE } d q
        with ⟨st2, out, reqs⟩
      rw [hconn] at hH
      cases out with
      | err e =>
        simp [telegram, hconn, hE, not_le.mpr hfit, hsend, hR, hH] at hok
      | ok c2 =>
        simp [telegram, hconn, hE, not_le.mpr hfit, hsend, hR, hH] at hok ⊢
        subst hok
        exact classify_spec st2 c2


/-- Claim C2, amended: a connected exchange with wait_for_response true
whose initial read returns between 1 and 7 bytes fails with
MalformedResponse and leaves last_response at the "none" sentinel (it
is reset at the start of every telegram call), never at a partial or
garbage code. -/
theorem telegram_short_header (st : State) (command payload tg d : List Nat)
    (q' : List (List Nat)) (sock : Sock)
    (hconn : st.is_connected = true)
    (henc : encode command payload = some tg)
    (hfit : (tg.length : Int) < st.buffer_size)
    (hsend : sock.sendOk = true)
    (hrecv : sockRecv st.buffer_size.toNat sock.recvQueue = some (d, q'))
    (hlen1 : 1 ≤ d.length) (hlen7 : d.length ≤ 7) :
    (telegram st command payload true sock).result = .err .malformedResponse
    ∧ (telegram st command payload true sock).state.last_lsv2_response = RSP.NONE := by
  have h0 : 0 < d.length := hlen1
  have h8 : ¬ 8 ≤ d.length := by omega
  simp [telegram, hconn, henc, not_le.mpr hfit, hsend, hrecv, handleResponse, h0, h8]

/-- With at least 8 bytes read, response handling always decodes the
header: the state carries the permissively decoded code and the outcome
is never MalformedResponse. -/
theorem handleResponse_ge8 (st : State) (d : List Nat) (q : List (List Nat))
    (h8 : 8 ≤ d.length) :
    (handleResponse st d q).1
      = { st with last_lsv2_response := RSP.mk (utf8DecodeIgnore ((d.drop 4).take 4)) }
    ∧ (handleResponse st d q).2.1 ≠ .err .malformedResponse := by
  have h0 : 0 < d.length := by omega
  simp only [handleResponse, if_pos h0, if_pos h8]
  split
  · split
    · exact ⟨rfl, by simp⟩
    · exact ⟨rfl, by simp⟩
  · exact ⟨rfl, by simp⟩

/-- Claim C9: for every initial read of at least 8 bytes, decoding the 4
response-code bytes never fails: arbitrary (also non-UTF8) bytes are
tolerated by dropping invalid ones, the exchange never raises
MalformedResponse, and last_response is set to the decoded code. -/
theorem telegram_header_decode_total (st : State) (command payload tg d : List Nat)
    (q' : List (List Nat)) (sock : Sock)
    (hconn : st.is_connected = true)
    (henc : encode command payload = some tg)
    (hfit : (tg.length : Int) < st.buffer_size)
    (hsend : sock.sendOk = true)
    (hrecv : sockRecv st.buffer_size.toNat sock.recvQueue = some (d, q'))
    (hlen : 8 ≤ d.length) :
    (telegram st command payload true sock).result ≠ .err .malformedResponse
    ∧ (telegram st command payload true sock).state.last_lsv2_response
      = RSP.mk (utf8DecodeIgnore ((d.drop 4).take 4)) := by
  rcases hH : handleResponse { st with last_lsv2_response := RSP.NONE } d q'
    with ⟨st2, out, reqs⟩
  have hsp := handleResponse_ge8 { st with last_lsv2_response := RSP.NONE } d q' hlen
  rw [hH] at hsp
  simp only [] at hsp
  obtain ⟨hst2, hout⟩ := hsp
  rw [hconn] at hH
  cases out with
  | err e =>
    constructor
    · simp [telegram, hconn, henc, not_le.mpr hfit, hsend, hrecv, hH]
      simpa using hout
    · simp [telegram, hconn, henc, not_le.mpr hfit, hsend, hrecv, hH, hst2]
  | ok c2 =>
    constructor
    · simp [telegram, hconn, henc, not_le.mpr hfit, hsend, hrecv, hH]
    · simp [telegram, hconn, henc, not_le.mpr hfit, hsend, hrecv, hH,
        classify_last_response, hst2]


/-- Claim C1, evidence of the code bug: the reassembly loop sizes every
additional read as response_length minus the length of the content that
arrived with the initial read (line 223 reads the unchanged
data_recived), not as the remaining deficit, and stops only when the
accumulated length reaches at least the declared length.  At the
failing input (declared length 10, bare-header initial read, then
chunks of 6 and 10 bytes) the two loop reads both request 10 bytes
(instead of 10 then 4) and the exchange returns 16 bytes for a declared
length of 10.  The spec's own 40/40/20 example still returns the
100-byte concatenation with last_response equal to the header's
code. -/
theorem telegram_reassembly_initial_deficit :
    (telegram ⟨256, true, RSP.NONE, TransmissionError.empty⟩ [65, 66, 67, 68] [] true
        ⟨true, [[0, 0, 0, 10, 65, 66, 67, 68], [1, 2, 3, 4, 5, 6],
          [7, 8, 9, 10, 11, 12, 13, 14, 15, 16]]⟩).recvs = [256, 10, 10]
    ∧ (telegram ⟨256, true, RSP.NONE, TransmissionError.empty⟩ [65, 66, 67, 68] [] true
        ⟨true, [[0, 0, 0, 10, 65, 66, 67, 68], [1, 2, 3, 4, 5, 6],
          [7, 8, 9, 10, 11, 12, 13, 14, 15, 16]]⟩).result
      = .ok [1, 2, 3, 4, 5, 6, 7, 8, 9, 10, 11, 12, 13, 14, 15, 16]
    ∧ (telegram ⟨256, true, RSP.NONE, TransmissionError.empty⟩ [65, 66, 67, 68] [] true
        ⟨true, [[0, 0, 0, 100, 84, 95, 79, 75], List.replicate 40 1, List.replicate 40 2,
          List.replicate 20 3]⟩).result
      = .ok (List.replicate 40 1 ++ List.replicate 40 2 ++ List.replicate 20 3)
    ∧ (telegram ⟨256, true, RSP.NONE, TransmissionError.empty⟩ [65, 66, 67, 68] [] true
        ⟨true, [[0, 0, 0, 100, 84, 95, 79, 75], List.replicate 40 1, List.replicate 40 2,
          List.replicate 20 3]⟩).state.last_lsv2_response = RSP.mk [84, 95, 79, 75] :=
  ⟨by decide, by decide, by decide, by decide⟩

/-- Claim C2, counterexample: after connect and one successful exchange
(a reachable state), last_response is the code T_OK; a following
exchange whose initial read returns exactly 5 bytes fails with
MalformedResponse but leaves last_response at the "none" sentinel, not
at its pre-call value, refuting the claim as stated. -/
theorem telegram_short_header_counterexample :
    (telegram (connect initState) [82, 95, 86, 82] [] true
        ⟨true, [[0, 0, 0, 0, 84, 95, 79, 75]]⟩).state
      = ⟨256, true, RSP.mk [84, 95, 79, 75], TransmissionError.empty⟩
    ∧ (telegram ⟨256, true, RSP.mk [84, 95, 79, 75], TransmissionError.empty⟩
        [82, 95, 86, 82] [] true ⟨true, [[1, 2, 3, 4, 5]]⟩).result = .err .malformedResponse
    ∧ (telegram ⟨256, true, RSP.mk [84, 95, 79, 75], TransmissionError.empty⟩
        [82, 95, 86, 82] [] true ⟨true, [[1, 2, 3, 4, 5]]⟩).state.last_lsv2_response
      ≠ RSP.mk [84, 95, 79, 75] :=
  ⟨by decide, by decide, by decide⟩

/-- Witness for the amended claim C2 at a concrete 5-byte read. -/
theorem telegram_short_header_witness :
    encode [82, 95, 86, 82] [] = some [0, 0, 0, 0, 82, 95, 86, 82]
    ∧ sockRecv ((⟨256, true, RSP.NONE, TransmissionError.empty⟩ : State)).buffer_size.toNat
        [[1, 2, 3, 4, 5]] = some ([1, 2, 3, 4, 5], [])
    ∧ ((telegram ⟨256, true, RSP.NONE, TransmissionError.empty⟩ [82, 95, 86, 82] [] true
          ⟨true, [[1, 2, 3, 4, 5]]⟩).result = .err .malformedResponse
      ∧ (telegram ⟨256, true, RSP.NONE, TransmissionError.empty⟩ [82, 95, 86, 82] [] true
          ⟨true, [[1, 2, 3, 4, 5]]⟩).state.last_lsv2_response = RSP.NONE) :=
  ⟨by decide, by decide,
    telegram_short_header ⟨256, true, RSP.NONE, TransmissionError.empty⟩
      [82, 95, 86, 82] [] [0, 0, 0, 0, 82, 95, 86, 82] [1, 2, 3, 4, 5] []
      ⟨true, [[1, 2, 3, 4, 5]]⟩ (by decide) (by decide) (by decide) (by decide)
      (by decide) (by decide) (by decide)⟩

/-- Witness for claim C4: an 11-byte frame against a 10-byte buffer. -/
theorem telegram_oversize_rejected_witness :
    encode [82, 95, 86, 82] [1, 2, 3] = some [0, 0, 0, 3, 82, 95, 86, 82, 1, 2, 3]
    ∧ (⟨10, true, RSP.NONE, TransmissionError.empty⟩ : State).buffer_size
        ≤ (([0, 0, 0, 3, 82, 95, 86, 82, 1, 2, 3] : List Nat).length : Int)
    ∧ ((telegram ⟨10, true, RSP.NONE, TransmissionError.empty⟩ [82, 95, 86, 82] [1, 2, 3]
          true ⟨true, []⟩).result = .err .telegramTooLarge
      ∧ (telegram ⟨10, true, RSP.NONE, TransmissionError.empty⟩ [82, 95, 86, 82] [1, 2, 3]
          true ⟨true, []⟩).sends = []) :=
  ⟨by decide, by decide,
    telegram_oversize_rejected ⟨10, true, RSP.NONE, TransmissionError.empty⟩
      [82, 95, 86, 82] [1, 2, 3] [0, 0, 0, 3, 82, 95, 86, 82, 1, 2, 3] true ⟨true, []⟩
      (by decide) (by decide) (by decide)⟩

/-- Witness for claim C7 at a concrete no-wait exchange. -/
theorem telegram_no_wait_witness :
    encode [82, 95, 86, 82] [1, 2] = some [0, 0, 0, 2, 82, 95, 86, 82, 1, 2]
    ∧ (([0, 0, 0, 2, 82, 95, 86, 82, 1, 2] : List Nat).length : Int)
        < (⟨256, true, RSP.NONE, TransmissionError.empty⟩ : State).buffer_size
    ∧ ((telegram ⟨256, true, RSP.NONE, TransmissionError.empty⟩ [82, 95, 86, 82] [1, 2]
          false ⟨true, [[9, 9, 9]]⟩).result = .ok []
      ∧ (telegram ⟨256, true, RSP.NONE, TransmissionError.empty⟩ [82, 95, 86, 82] [1, 2]
          false ⟨true, [[9, 9, 9]]⟩).recvs = []
      ∧ (telegram ⟨256, true, RSP.NONE, TransmissionError.empty⟩ [82, 95, 86, 82] [1, 2]
          false ⟨true, [[9, 9, 9]]⟩).state.last_lsv2_response = RSP.NONE) :=
  ⟨by decide, by decide,
    telegram_no_wait ⟨256, true, RSP.NONE, TransmissionError.empty⟩
      [82, 95, 86, 82] [1, 2] [0, 0, 0, 2, 82, 95, 86, 82, 1, 2] ⟨true, [[9, 9, 9]]⟩
      (by decide) (by decide) (by decide) (by decide)⟩

/-- Witness for claim C8: an error-code response with 2 content bytes. -/
theorem telegram_classification_witness :
    (telegram ⟨256, true, RSP.NONE, TransmissionError.empty⟩ [82, 95, 86, 82] [] true
        ⟨true, [[0, 0, 0, 2, 84, 95, 69, 82, 7, 8]]⟩).result = .ok [7, 8]
    ∧ (((telegram ⟨256, true, RSP.NONE, TransmissionError.empty⟩ [82, 95, 86, 82] [] true
          ⟨true, [[0, 0, 0, 2, 84, 95, 69, 82, 7, 8]]⟩).state.last_lsv2_response = RSP.T_ER →
        (telegram ⟨256, true, RSP.NONE, TransmissionError.empty⟩ [82, 95, 86, 82] [] true
          ⟨true, [[0, 0, 0, 2, 84, 95, 69, 82, 7, 8]]⟩).state.last_error
          = TransmissionError.from_ba [7, 8])
      ∧ ((telegram ⟨256, true, RSP.NONE, TransmissionError.empty⟩ [82, 95, 86, 82] [] true
          ⟨true, [[0, 0, 0, 2, 84, 95, 69, 82, 7, 8]]⟩).state.last_lsv2_response ≠ RSP.T_ER →
        (telegram ⟨256, true, RSP.NONE, TransmissionError.empty⟩ [82, 95, 86, 82] [] true
          ⟨true, [[0, 0, 0, 2, 84, 95, 69, 82, 7, 8]]⟩).state.last_error
          = TransmissionError.empty)) :=
  ⟨by decide,
    telegram_classification ⟨256, true, RSP.NONE, TransmissionError.empty⟩
      [82, 95, 86, 82] [] true ⟨true, [[0, 0, 0, 2, 84, 95, 69, 82, 7, 8]]⟩ [7, 8]
      (by decide)⟩

/-- Witness for claim C9: a header whose code bytes are not valid UTF-8. -/
theorem telegram_header_decode_total_witness :
    sockRecv ((⟨256, true, RSP.NONE, TransmissionError.empty⟩ : State)).buffer_size.toNat
        [[0, 0, 0, 0, 255, 255, 255, 255]] = some ([0, 0, 0, 0, 255, 255, 255, 255], [])
    ∧ (8 : Nat) ≤ ([0, 0, 0, 0, 255, 255, 255, 255] : List Nat).length
    ∧ ((telegram ⟨256, true, RSP.NONE, TransmissionError.empty⟩ [82, 95, 86, 82] [] true
          ⟨true, [[0, 0, 0, 0, 255, 255, 255, 255]]⟩).result ≠ .err .malformedResponse
      ∧ (telegram ⟨256, true, RSP.NONE, TransmissionError.empty⟩ [82, 95, 86, 82] [] true
          ⟨true, [[0, 0, 0, 0, 255, 255, 255, 255]]⟩).state.last_lsv2_response
        = RSP.mk (utf8DecodeIgnore ((([0, 0, 0, 0, 255, 255, 255, 255] : List Nat).drop 4).take 4))) :=
  ⟨by decide, by decide,
    telegram_header_decode_total ⟨256, true, RSP.NONE, TransmissionError.empty⟩
      [82, 95, 86, 82] [] [0, 0, 0, 0, 82, 95, 86, 82] [0, 0, 0, 0, 255, 255, 255, 255] []
      ⟨true, [[0, 0, 0, 0, 255, 255, 255, 255]]⟩
      (by decide) (by decide) (by decide) (by decide) (by decide) (by decide)⟩

/-- Witness for claim C10: a no-wait exchange started with a non-empty
prior error record. -/
theorem telegram_no_wait_frame_witness :
    (telegram ⟨256, true, RSP.NONE, TransmissionError.from_ba [1]⟩ [82, 95, 86, 82] []
        false ⟨true, []⟩).result = .ok []
    ∧ ((telegram ⟨256, true, RSP.NONE, TransmissionError.from_ba [1]⟩ [82, 95, 86, 82] []
          false ⟨true, []⟩).state.last_error = TransmissionError.empty
      ∧ (telegram ⟨256, true, RSP.NONE, TransmissionError.from_ba [1]⟩ [82, 95, 86, 82] []
          false ⟨true, []⟩).state.buffer_size
        = (⟨256, true, RSP.NONE, TransmissionError.from_ba [1]⟩ : State).buffer_size
      ∧ (telegram ⟨256, true, RSP.NONE, TransmissionError.from_ba [1]⟩ [82, 95, 86, 82] []
          false ⟨true, []⟩).state.is_connected
        = (⟨256, true, RSP.NONE, TransmissionError.from_ba [1]⟩ : State).is_connected) :=
  ⟨by decide,
    telegram_no_wait_frame ⟨256, true, RSP.NONE, TransmissionError.from_ba [1]⟩
      [82, 95, 86, 82] [] [] ⟨true, []⟩ (by decide)⟩

end LLLSV2Com
